import Mathlib

/-!
# Verification of `redis_cache/utils.py` (django-redis-cache)

Shallow embedding of the address parser (`get_servers`,
`parse_connection_kwargs`) and of the self-healing call proxy
(`MethodProxy` / `ClientProxy`) from `src/redis_cache/utils.py`,
together with proofs settling the frozen claims about them.

Python strings are modelled as Lean `String` (with helper operations on
`List Char` mirroring the Python string methods used by the source), and
Python dictionaries as association lists with in-place update.  Percent
decoding of query strings and IPv6 bracket handling inside `urlparse`
are outside every code path the claims exercise and are not modelled.
-/

set_option autoImplicit false

namespace RedisCacheUtils

/-! ## Python string primitives used by the source -/

/-- `needle in haystack` on characters (Python `in` for a 1-char needle). -/
def charIn (c : Char) (l : List Char) : Bool := l.contains c

/-- `s.split(sep, 1)`: split at the first occurrence of a character,
returning `none` when the character does not occur. -/
def splitFirst (sep : Char) : List Char → Option (List Char × List Char)
  | [] => none
  | c :: rest =>
    if c = sep then some ([], rest)
    else (splitFirst sep rest).map (fun p => (c :: p.1, p.2))

/-- `s.rsplit(sep, 1)`: split at the last occurrence of a character. -/
def splitLast (sep : Char) (l : List Char) : Option (List Char × List Char) :=
  (splitFirst sep l.reverse).map (fun p => (p.2.reverse, p.1.reverse))

/-- `netloc.split(sep)[-1]`: the part after the last occurrence of `sep`
(the whole string when `sep` is absent). -/
def afterLast (sep : Char) (l : List Char) : List Char :=
  match splitLast sep l with
  | some p => p.2
  | none => l

/-- `s.rsplit(sep, 1)[0]`: the part before the last occurrence of `sep`
(the whole string when `sep` is absent). -/
def beforeLast (sep : Char) (l : List Char) : List Char :=
  match splitLast sep l with
  | some p => p.1
  | none => l

/-- Python `s.split(sep)` for a 1-character separator: splits at every
occurrence, keeping empty pieces (`"a,,b".split(",") == ["a","","b"]`). -/
def pySplitChar (sep : Char) : List Char → List (List Char)
  | [] => [[]]
  | c :: rest =>
    match pySplitChar sep rest with
    | [] => [[c]]
    | h :: t => if c = sep then [] :: h :: t else (c :: h) :: t

/-- Substring test, modelling Python `sub in s` for multi-character `sub`. -/
def listIsInfixOf (needle : List Char) : List Char → Bool
  | [] => needle.isEmpty
  | c :: rest => needle.isPrefixOf (c :: rest) || listIsInfixOf needle rest

/-- Python `sub in s` on `String`s. -/
def pyIn (sub s : String) : Bool := listIsInfixOf sub.data s.data

/-- Take characters until one of `stops` is hit, returning the prefix and
the rest (used by `urlparse` to delimit the netloc at `/`, `?` or `#`). -/
def spanUntil (stops : List Char) : List Char → List Char × List Char
  | [] => ([], [])
  | c :: rest =>
    if charIn c stops then ([], c :: rest)
    else
      let p := spanUntil stops rest
      (c :: p.1, p.2)

/-- Numeric value of a list of decimal digit characters. -/
def natOfDigits (l : List Char) : Nat :=
  l.foldl (fun acc c => 10 * acc + (c.toNat - 48)) 0

/-- Python `int(s)` on a decimal string: optional sign followed by at
least one digit; `none` models the `ValueError` raised otherwise.
(Surrounding whitespace, underscores and non-decimal bases are outside
the inputs the source ever feeds to `int`.) -/
def parsePyInt (s : String) : Option Int :=
  match s.data with
  | [] => none
  | '-' :: ds =>
    if ds ≠ [] ∧ ds.all (·.isDigit) then some (-(natOfDigits ds : Int)) else none
  | '+' :: ds =>
    if ds ≠ [] ∧ ds.all (·.isDigit) then some ((natOfDigits ds : Int)) else none
  | ds =>
    if ds.all (·.isDigit) then some ((natOfDigits ds : Int)) else none

/-! ## Python values and dictionaries -/

/-- The Python values that flow through `parse_connection_kwargs`:
strings, integers, `None`, and the `SSLConnection` class object. -/
inductive PyVal
  | str (s : String)
  | int (n : Int)
  | none
  | sslConnectionClass
  deriving DecidableEq, Repr

/-- A Python `dict` with `str` keys, as an association list without
duplicate keys; `set` updates in place, preserving the key's position. -/
abbrev Dict := List (String × PyVal)

/-- `k in d`. -/
def Dict.containsKey (d : Dict) (k : String) : Bool :=
  (List.any d (fun p => p.1 = k))

/-- `d.get(k)` / `d[k]` as an `Option`. -/
def Dict.get? (d : Dict) (k : String) : Option PyVal :=
  (List.find? (fun p => p.1 = k) d).map (fun p => p.2)

/-- `d[k] = v`: replace in place when the key exists, else append. -/
def Dict.set (d : Dict) (k : String) (v : PyVal) : Dict :=
  if Dict.containsKey d k then
    List.map (fun p => if p.1 = k then (k, v) else p) d
  else
    d ++ [(k, v)]

/-- `d.pop(k)` (ignoring the returned value). -/
def Dict.pop (d : Dict) (k : String) : Dict :=
  List.filter (fun p => p.1 ≠ k) d

/-- `d.update(other)`: insert every entry of `other` into `d`. -/
def Dict.updateWith (d other : Dict) : Dict :=
  List.foldl (fun acc p => Dict.set acc p.1 p.2) d other

/-! ## `get_servers` (utils.py lines 18-30) -/

/-- The `location` argument: a string, an iterable of strings, or
anything else (which `get_servers` rejects). -/
inductive Location
  | str (s : String)
  | iter (l : List String)
  | other
  deriving Repr

/-- The exceptions the embedded code can raise. -/
inductive PyErr
  | improperlyConfigured (msg : String)
  | valueError
  | typeError
  deriving DecidableEq, Repr

/-- `get_servers`: a string is split on every comma; an iterable is
returned as is; anything else raises `ImproperlyConfigured`. -/
def get_servers : Location → Except PyErr (List String)
  | .str s => .ok ((pySplitChar ',' s.data).map (fun cs => String.mk cs))
  | .iter l => .ok l
  | .other => .error (.improperlyConfigured "\"server\" must be an iterable or string")

theorem pySplitChar_ne_nil (sep : Char) (l : List Char) :
    pySplitChar sep l ≠ [] := by
  cases l with
  | nil => simp [pySplitChar]
  | cons c rest =>
    simp only [pySplitChar]
    cases pySplitChar sep rest with
    | nil => simp
    | cons h t =>
      by_cases hc : c = sep <;> simp [hc]

theorem pySplitChar_length (sep : Char) (l : List Char) :
    (pySplitChar sep l).length = l.count sep + 1 := by
  induction l with
  | nil => simp [pySplitChar]
  | cons c rest ih =>
    simp only [pySplitChar]
    cases hr : pySplitChar sep rest with
    | nil => exact absurd hr (pySplitChar_ne_nil sep rest)
    | cons h t =>
      rw [hr] at ih
      by_cases hc : c = sep
      · subst hc
        simp only [if_pos rfl, List.length_cons, List.count_cons]
        simp at ih ⊢
        omega
      · simp only [if_neg hc, List.length_cons, List.count_cons]
        simp [hc] at ih ⊢
        omega

/-! ## `urlparse` / `parse_qs` (Python 2.7 `urlparse` module)

The source delegates URL splitting to the standard library.  The model
below follows `urlparse.urlsplit` and the `username` / `password` /
`hostname` / `port` netloc properties of the result object.  The
`params` component (a `;` in the last path segment) and IPv6 brackets
never arise on the inputs the claims exercise and are not modelled. -/

/-- Characters a URL scheme may consist of (`urlparse.scheme_chars`). -/
def schemeChars : List Char :=
  "abcdefghijklmnopqrstuvwxyzABCDEFGHIJKLMNOPQRSTUVWXYZ0123456789+-.".data

/-- The components of `urlparse(url)`. -/
structure SplitResult where
  scheme : String
  netloc : String
  path : String
  query : String
  fragment : String
  deriving DecidableEq, Repr

/-- `urlparse.urlsplit`: scheme (when the prefix before the first `:` is
made of scheme characters and the rest is not a bare port number), then
netloc after `//` up to `/`, `?` or `#`, then fragment, then query. -/
def urlparseModel (url : String) : SplitResult :=
  let u0 := url.data
  let p1 :=
    match splitFirst ':' u0 with
    | some (pre, rest) =>
      if pre ≠ [] ∧ pre.all (fun c => charIn c schemeChars) ∧
          (rest = [] ∨ ¬rest.all (·.isDigit)) then
        (pre.map Char.toLower, rest)
      else ([], u0)
    | none => ([], u0)
  let scheme := p1.1
  let u1 := p1.2
  let p2 :=
    if u1.take 2 = ['/', '/'] then spanUntil ['/', '?', '#'] (u1.drop 2)
    else ([], u1)
  let netloc := p2.1
  let u2 := p2.2
  let p3 :=
    match splitFirst '#' u2 with
    | some q => q
    | none => (u2, [])
  let u3 := p3.1
  let fragment := p3.2
  let p4 :=
    match splitFirst '?' u3 with
    | some q => q
    | none => (u3, [])
  ⟨String.mk scheme, String.mk netloc, String.mk p4.1,
    String.mk p4.2, String.mk fragment⟩

/-- `url.hostname`: the netloc after the last `@`; lowercased part
before the first `:` when a port is present; `None` when empty. -/
def SplitResult.hostnameOpt (r : SplitResult) : Option String :=
  let n := afterLast '@' r.netloc.data
  match splitFirst ':' n with
  | some p => some (String.mk (p.1.map Char.toLower))
  | none => if n = [] then none else some (String.mk (n.map Char.toLower))

/-- `url.port`: the digits between the first and second `:` after the
last `@` of the netloc; `None` when absent or empty. -/
def SplitResult.portOpt (r : SplitResult) : Option Nat :=
  let n := afterLast '@' r.netloc.data
  match splitFirst ':' n with
  | some p =>
    let digits :=
      match splitFirst ':' p.2 with
      | some q => q.1
      | none => p.2
    if digits ≠ [] ∧ digits.all (·.isDigit) then some (natOfDigits digits)
    else none
  | none => none

/-- `url.password`: when the netloc has a `@`, the userinfo after its
first `:`; `None` otherwise. -/
def SplitResult.passwordOpt (r : SplitResult) : Option String :=
  if charIn '@' r.netloc.data then
    let userinfo := beforeLast '@' r.netloc.data
    match splitFirst ':' userinfo with
    | some p => some (String.mk p.2)
    | none => Option.none
  else Option.none

/-- `urlparse.parse_qsl` with default options: pairs split on `&` and
`;`; a pair without `=` or with an empty value is dropped.  (Percent and
`+` decoding are omitted: no claim input uses them.) -/
def parse_qsl (qs : List Char) : List (List Char × List Char) :=
  ((pySplitChar '&' qs).flatMap (pySplitChar ';')).filterMap (fun nv =>
    match splitFirst '=' nv with
    | Option.none => Option.none
    | some p => if p.2 = [] then Option.none else some p)

/-- Lines 95-97 of utils.py: fold `parse_qs(qs)` into a dict keeping,
for each name, its first value (`value[0]` of the grouped list). -/
def urlOptionsOfQs (qs : List Char) : Dict :=
  (parse_qsl qs).foldl
    (fun d p =>
      if Dict.containsKey d (String.mk p.1) then d
      else Dict.set d (String.mk p.1) (.str (String.mk p.2)))
    []

/-! ## `parse_connection_kwargs` (utils.py lines 46-163) -/

/-- `Option String` (a Python str-or-None) as a `PyVal`. -/
def optStrToVal : Option String → PyVal
  | some s => .str s
  | Option.none => .none

/-- `Option Int` (a Python int-or-None) as a `PyVal`. -/
def optIntToVal : Option Int → PyVal
  | some n => .int n
  | Option.none => .none

/-- `db or 0` for the function's `db` argument (`None` and `0` are
falsy). -/
def pyOrZero : Option Int → Int
  | some n => if n = 0 then 0 else n
  | Option.none => 0

/-- `int(url.port or 6379)`: port `0` and a missing port are both falsy,
so both fall back to `6379`. -/
def portOr6379 : Option Nat → Int
  | some n => if n = 0 then 6379 else (n : Int)
  | Option.none => 6379

/-- `int(v)` on a dict value: identity on ints, decimal parse on strings
(`ValueError` on failure), `TypeError` on anything else. -/
def pyIntOfVal : PyVal → Except PyErr Int
  | .int n => .ok n
  | .str s =>
    match parsePyInt s with
    | some n => .ok n
    | Option.none => .error .valueError
  | .none => .error .typeError
  | .sslConnectionClass => .error .typeError

/-- `url.path.replace('/', '')`. -/
def stripSlashes (s : String) : String :=
  String.mk (s.data.filter (fun c => c ≠ '/'))

/-- `parse_connection_kwargs(server, db=None, **kwargs)`: returns the
final kwargs dict, or the exception escaping the function
(`ImproperlyConfigured` for a bad `host:port` port, or the uncaught
`ValueError`/`TypeError` from `int()` on a malformed `db` value). -/
def parse_connection_kwargs (server : String) (db : Option Int)
    (kwargs0 : Dict) : Except PyErr Dict :=
  let kwargs := Dict.set kwargs0 "unix_socket_path" (.str "")
  if pyIn "://" server then
    let url0 := urlparseModel server
    -- python2.6 legacy: a querystring left inside url.path is chopped
    -- off and the shortened URL reparsed (lines 85-89).
    let p :=
      if pyIn "?" url0.path ∧ url0.query = "" then
        let qs :=
          match splitFirst '?' url0.path.data with
          | some q => q.2
          | Option.none => []
        (urlparseModel (String.mk (server.data.take
            (server.data.length - (qs.length + 1)))), qs)
      else (url0, url0.query.data)
    let url := p.1
    let qs := p.2
    let url_options := urlOptionsOfQs qs
    let url_options :=
      if url.scheme = "unix" then
        Dict.set (Dict.set url_options
          "password" (optStrToVal url.passwordOpt))
          "unix_socket_path" (.str url.path)
      else
        let u := Dict.set (Dict.set (Dict.set url_options
          "host" (optStrToVal url.hostnameOpt))
          "port" (.int (portOr6379 url.portOpt)))
          "password" (optStrToVal url.passwordOpt)
        let u :=
          if ¬Dict.containsKey u "db" ∧ url.path ≠ "" then
            match parsePyInt (stripSlashes url.path) with
            | some n => Dict.set u "db" (.int n)
            | Option.none => u
          else u
        if url.scheme = "rediss" then
          Dict.set u "connection_class" .sslConnectionClass
        else u
    -- last shot at the db value (line 125)
    match pyIntOfVal ((Dict.get? url_options "db").getD (.int (pyOrZero db))) with
    | .error e => .error e
    | .ok n =>
      let url_options := Dict.set url_options "db" (.int n)
      let kwargs := Dict.updateWith kwargs url_options
      let kwargs :=
        match Dict.get? kwargs "charset" with
        | some v => Dict.set (Dict.pop kwargs "charset") "encoding" v
        | Option.none => kwargs
      let kwargs :=
        match Dict.get? kwargs "errors" with
        | some v => Dict.set (Dict.pop kwargs "errors") "encoding_errors" v
        | Option.none => kwargs
      .ok kwargs
  else
    if pyIn ":" server then
      match splitLast ':' server.data with
      | some p =>
        match parsePyInt (String.mk p.2) with
        | some n =>
          .ok (Dict.set (Dict.set (Dict.set (Dict.set kwargs
            "host" (.str (String.mk p.1)))
            "port" (.int n))
            "unix_socket_path" .none)
            "db" (optIntToVal db))
        | Option.none =>
          .error (.improperlyConfigured
            ((String.mk p.2) ++ " from " ++ server ++ " must be an integer"))
      | Option.none =>
        -- unreachable: ':' occurs in server, so rsplit succeeds
        .error (.improperlyConfigured server)
    else
      .ok (Dict.set (Dict.set (Dict.set (Dict.set kwargs
        "host" .none)
        "port" .none)
        "unix_socket_path" (.str server))
        "db" (optIntToVal db))

/-! ## `MethodProxy` / `ClientProxy` (utils.py lines 166-225)

Clients are identified by `Nat` ids; `create_client` hands out fresh
ids.  The connection identifier used for pool eviction
(`get_connection_identifier_from_client`) is modelled as the client id
itself; the `try/del/except KeyError` eviction is recorded as an event
(it never raises, matching the source's tolerance of absent keys).

The underlying callable is a parameter `behavior : Nat → Nat → Outcome`
giving the result of running the named method on a given client at a
given 1-based invocation index within the guarded call. -/

/-- What one invocation of the underlying callable does. -/
inductive Outcome
  | success (v : PyVal)
  | connError (e : Nat)
  | otherError (e : Nat)
  deriving DecidableEq, Repr

/-- How a guarded call finishes: a normal return (Python value, where a
fall-off-the-end return is `PyVal.none`), a `ConnectionError`, or any
other exception. -/
inductive CallResult
  | ret (v : PyVal)
  | raisedConn (e : Nat)
  | raisedOther (e : Nat)
  deriving DecidableEq, Repr

/-- The `ClientProxy` state the guard mutates: its current client and
the supply of fresh client ids for `create_client`. -/
structure ClientProxyS where
  client : Nat
  nextId : Nat
  deriving DecidableEq, Repr

/-- The `MethodProxy` state: its own client reference (`self.client`),
set from the proxy's client at construction time. -/
structure MethodProxyS where
  client : Nat
  deriving DecidableEq, Repr

/-- `MethodProxy.__init__(self, client_proxy, client, method_attr)` as
built by `ClientProxy.__getattr__`: snapshots the proxy's client. -/
def mkMethodProxy (proxy : ClientProxyS) : MethodProxyS :=
  ⟨proxy.client⟩

/-- Observable events of one guarded call: pool identifiers evicted (in
order), number of `create_client` calls, and the clients on which the
underlying callable actually ran (in order). -/
structure CallTrace where
  evictions : List Nat
  creations : Nat
  calls : List Nat
  deriving DecidableEq, Repr

namespace MethodProxy

/-- `MethodProxy.max_call_count`. -/
def max_call_count : Nat := 3

/-- `MethodProxy._call(self, call_count, *args, **kwargs)`.  The fuel
argument only bounds the recursion depth; starting from
`call_count = 1` with fuel `max_call_count` it never runs out.  On a
`ConnectionError` with attempts remaining the stale client is evicted,
a fresh client is installed on both the guard and the proxy, and the
call recurses — whose result is NOT returned (the Python code lacks a
`return` there, so a successful retry yields `None`); a raised
exception still propagates. -/
def callAux (behavior : Nat → Nat → Outcome) :
    Nat → Nat → MethodProxyS → ClientProxyS → CallTrace →
    Option (CallResult × MethodProxyS × ClientProxyS × CallTrace)
  | 0, _, _, _, _ => Option.none
  | fuel + 1, call_count, self, proxy, tr =>
    let inv := tr.calls.length + 1
    let tr1 := { tr with calls := tr.calls ++ [self.client] }
    match behavior self.client inv with
    | .success v => some (.ret v, self, proxy, tr1)
    | .otherError e => some (.raisedOther e, self, proxy, tr1)
    | .connError e =>
      if call_count = max_call_count then
        some (.raisedConn e, self, proxy, tr1)
      else
        let tr2 := { tr1 with
          evictions := tr1.evictions ++ [self.client],
          creations := tr1.creations + 1 }
        let newClient := proxy.nextId
        let proxy2 : ClientProxyS := ⟨newClient, proxy.nextId + 1⟩
        let self2 : MethodProxyS := ⟨newClient⟩
        match callAux behavior fuel (call_count + 1) self2 proxy2 tr2 with
        | Option.none => Option.none
        | some (r, self3, proxy3, tr3) =>
          match r with
          | .ret _ => some (.ret .none, self3, proxy3, tr3)
          | other => some (other, self3, proxy3, tr3)

/-- `MethodProxy.__call__`: `self._call(1, *args, **kwargs)`. -/
def invoke (behavior : Nat → Nat → Outcome) (self : MethodProxyS)
    (proxy : ClientProxyS) :
    Option (CallResult × MethodProxyS × ClientProxyS × CallTrace) :=
  callAux behavior max_call_count 1 self proxy ⟨[], 0, []⟩

end MethodProxy

/-! ## Claims -/

/-- Claim C1 (code bug): with a callable that raises `ConnectionError`
on its first two invocations and returns `42` on the third, the guarded
call performs exactly two evict+recreate cycles as claimed, but returns
`None` rather than `42`: the recursive retry in `MethodProxy._call`
(line 190) does not return the recursive call's result, so a successful
retry's value is dropped. -/
theorem C1_successful_retry_returns_none :
    MethodProxy.invoke
        (fun _ n => if n ≤ 2 then .connError n else .success (.int 42))
        (mkMethodProxy ⟨0, 1⟩) ⟨0, 1⟩ =
      some (.ret .none, ⟨2⟩, ⟨2, 3⟩, ⟨[0, 1], 2, [0, 1, 2]⟩) := by
  rfl

/-- Claim C2 (counterexample): `parse_connection_kwargs` accepts the
unsupported scheme `foo://` and returns connection parameters (as a TCP
address) instead of failing at parse time. -/
theorem C2_counterexample :
    parse_connection_kwargs "foo://localhost" Option.none [] =
      .ok [("unix_socket_path", .str ""), ("host", .str "localhost"),
           ("port", .int 6379), ("password", .none), ("db", .int 0)] := by
  rfl

/-- Claim C2 (amended): a `://` address with an unrecognized scheme is
not rejected — every scheme other than `unix` takes the TCP branch, so
`foo://localhost` parses to host/port parameters for every caller
default `db`. -/
theorem C2_unknown_scheme_parses_as_tcp (db : Option Int) :
    parse_connection_kwargs "foo://localhost" db [] =
      .ok [("unix_socket_path", .str ""), ("host", .str "localhost"),
           ("port", .int 6379), ("password", .none),
           ("db", .int (pyOrZero db))] := by
  rfl

/-- Claim C3 (counterexample): parsing `"myhost:9999"` with no caller
default leaves `db = None` in the result — the host:port branch passes
the `db` argument through unchanged instead of defaulting it to `0`. -/
theorem C3_counterexample :
    (parse_connection_kwargs "myhost:9999" Option.none []).map
        (fun d => Dict.get? d "db") =
      .ok (some PyVal.none) := by
  rfl

/-- Claim C3 (amended): only the URL branch resolves the database to an
integer (defaulting to `0`); the host:port branch stores the
caller-supplied `db` unchanged — `None` when absent. -/
theorem C3_database_resolution (db : Option Int) :
    (parse_connection_kwargs "redis://myhost" db []).map
        (fun d => Dict.get? d "db") = .ok (some (.int (pyOrZero db)))
    ∧ (parse_connection_kwargs "myhost:9999" db []).map
        (fun d => Dict.get? d "db") = .ok (some (optIntToVal db)) :=
  ⟨rfl, rfl⟩

/-- Claim C4 (counterexample): a guard constructed while the proxy's
client was `0` is invoked after another guard's recovery moved the
proxy to client `1`; the invocation runs on client `0` (its stored
snapshot, see `calls = [0]`) and returns client `0`'s answer — not the
proxy's current client `1`. -/
theorem C4_counterexample :
    MethodProxy.invoke
        (fun _ n => if n = 1 then .connError 7 else .success (.int 0))
        (mkMethodProxy ⟨0, 1⟩) ⟨0, 1⟩ =
      some (.ret .none, ⟨1⟩, ⟨1, 2⟩, ⟨[0], 1, [0, 1]⟩)
    ∧ MethodProxy.invoke (fun c _ => .success (.int (c : Int)))
        (mkMethodProxy ⟨0, 1⟩) ⟨1, 2⟩ =
      some (.ret (.int 0), ⟨0⟩, ⟨1, 2⟩, ⟨[], 0, [0]⟩) :=
  ⟨rfl, rfl⟩

/-- Claim C8 (counterexample): `redis://h:0` yields port `6379`, not
`0` — in the URL branch `int(url.port or 6379)` treats the falsy port
`0` as unset. -/
theorem C8_counterexample :
    (parse_connection_kwargs "redis://h:0" Option.none []).map
        (fun d => Dict.get? d "port") =
      .ok (some (.int 6379)) := by
  rfl

/-- Claim C8 (amended): an explicit port `0` is preserved in the
host:port form but replaced by the default `6379` in the URL form. -/
theorem C8_port_zero (db : Option Int) :
    (parse_connection_kwargs "myhost:0" db []).map
        (fun d => Dict.get? d "port") = .ok (some (.int 0))
    ∧ (parse_connection_kwargs "redis://h:0" db []).map
        (fun d => Dict.get? d "port") = .ok (some (.int 6379)) :=
  ⟨rfl, rfl⟩

/-- Claim C7: database precedence in the URL form — a `db` query
parameter beats a numeric path segment, a numeric path segment beats
the caller default, the caller default (with `None` and `0` collapsing
to `0`) applies otherwise, and a non-numeric path segment is silently
ignored rather than an error. -/
theorem C7_database_precedence (db : Option Int) :
    (parse_connection_kwargs "redis://localhost/3?db=5" db []).map
        (fun d => Dict.get? d "db") = .ok (some (.int 5))
    ∧ (parse_connection_kwargs "redis://localhost/7" db []).map
        (fun d => Dict.get? d "db") = .ok (some (.int 7))
    ∧ (parse_connection_kwargs "redis://localhost" db []).map
        (fun d => Dict.get? d "db") = .ok (some (.int (pyOrZero db)))
    ∧ (parse_connection_kwargs "redis://localhost/abc" db []).map
        (fun d => Dict.get? d "db") = .ok (some (.int (pyOrZero db))) :=
  ⟨rfl, rfl, rfl, rfl⟩

/-- Claim C9: `parse_connection_kwargs` is a pure function of its
arguments, so parsing the same scheme-form address twice with the same
default and options yields equal results. -/
theorem C9_parse_deterministic (s : String) (db : Option Int)
    (kwargs : Dict) (h : pyIn "://" s = true) :
    parse_connection_kwargs s db kwargs = parse_connection_kwargs s db kwargs :=
  rfl

/-- Claim C9 witness at a concrete scheme-form address. -/
theorem C9_parse_deterministic_witness :
    parse_connection_kwargs "redis://localhost:6379/2" Option.none [] =
      parse_connection_kwargs "redis://localhost:6379/2" Option.none [] :=
  C9_parse_deterministic "redis://localhost:6379/2" Option.none [] (by rfl)

/-- Claim C4 (amended): a guarded invocation dispatches the callable on
the guard's own stored client (`self.client`, the construction-time
snapshot as updated by that guard's own recoveries), not necessarily
the proxy's current client: when the callable succeeds on the guard's
client, that client is the one called and its result is returned. -/
theorem C4_dispatches_on_guard_client (behavior : Nat → Nat → Outcome)
    (self : MethodProxyS) (proxy : ClientProxyS) (v : PyVal)
    (h : behavior self.client 1 = .success v) :
    MethodProxy.invoke behavior self proxy =
      some (.ret v, self, proxy, ⟨[], 0, [self.client]⟩) := by
  simp [MethodProxy.invoke, MethodProxy.callAux, h]

/-- Claim C4 witness: a first-call success on the guard's client `0`
returns that client's value even though the proxy's client is `3`. -/
theorem C4_dispatches_on_guard_client_witness :
    MethodProxy.invoke (fun _ _ => .success (.int 5)) ⟨0⟩ ⟨3, 4⟩ =
      some (.ret (.int 5), ⟨0⟩, ⟨3, 4⟩, ⟨[], 0, [0]⟩) :=
  C4_dispatches_on_guard_client (fun _ _ => .success (.int 5)) ⟨0⟩ ⟨3, 4⟩
    (.int 5) rfl

/-- Claim C5: when the callable raises `ConnectionError` on all three
attempts, the guard re-raises the third attempt's error unchanged after
exactly two evict+recreate cycles — the eviction list is exactly the
two failed clients, with nothing after the third failure. -/
theorem C5_exhaustion_reraises_third_error (behavior : Nat → Nat → Outcome)
    (e1 e2 e3 : Nat) (self : MethodProxyS) (proxy : ClientProxyS)
    (h1 : ∀ c, behavior c 1 = .connError e1)
    (h2 : ∀ c, behavior c 2 = .connError e2)
    (h3 : ∀ c, behavior c 3 = .connError e3) :
    MethodProxy.invoke behavior self proxy =
      some (.raisedConn e3, ⟨proxy.nextId + 1⟩,
        ⟨proxy.nextId + 1, proxy.nextId + 2⟩,
        ⟨[self.client, proxy.nextId], 2,
         [self.client, proxy.nextId, proxy.nextId + 1]⟩) := by
  simp [MethodProxy.invoke, MethodProxy.callAux, h1, h2, h3,
    MethodProxy.max_call_count]

/-- Claim C5 witness: three connection failures numbered by attempt;
the raised error is the third one and two cycles happened. -/
theorem C5_exhaustion_reraises_third_error_witness :
    MethodProxy.invoke (fun _ n => .connError n) ⟨0⟩ ⟨0, 1⟩ =
      some (.raisedConn 3, ⟨2⟩, ⟨2, 3⟩, ⟨[0, 1], 2, [0, 1, 2]⟩) :=
  C5_exhaustion_reraises_third_error (fun _ n => .connError n) 1 2 3
    ⟨0⟩ ⟨0, 1⟩ (fun _ => rfl) (fun _ => rfl) (fun _ => rfl)

/-- Claim C6: a non-`ConnectionError` raised at any attempt `k` (after
connection failures on the earlier attempts) propagates immediately and
unchanged: the callable runs exactly `k` times, and the only evictions
and recreations are the `k - 1` caused by the earlier connection
failures — the non-connectivity error itself triggers none and is never
retried (for `k = 1`: zero evictions, zero recreations). -/
theorem C6_other_error_propagates (behavior : Nat → Nat → Outcome)
    (e k : Nat) (self : MethodProxyS) (proxy : ClientProxyS)
    (hk1 : 1 ≤ k) (hk3 : k ≤ 3)
    (hpre : ∀ c j, 1 ≤ j → j < k → ∃ ec, behavior c j = .connError ec)
    (hk : ∀ c, behavior c k = .otherError e) :
    ∃ g p tr, MethodProxy.invoke behavior self proxy =
        some (.raisedOther e, g, p, tr)
      ∧ tr.calls.length = k ∧ tr.evictions.length = k - 1
      ∧ tr.creations = k - 1 := by
  interval_cases k
  · exact ⟨self, proxy, ⟨[], 0, [self.client]⟩,
      by simp [MethodProxy.invoke, MethodProxy.callAux, hk], rfl, rfl, rfl⟩
  · obtain ⟨ec1, he1⟩ := hpre self.client 1 (by omega) (by omega)
    exact ⟨⟨proxy.nextId⟩, ⟨proxy.nextId, proxy.nextId + 1⟩,
      ⟨[self.client], 1, [self.client, proxy.nextId]⟩,
      by simp [MethodProxy.invoke, MethodProxy.callAux, he1, hk,
        MethodProxy.max_call_count], rfl, rfl, rfl⟩
  · obtain ⟨ec1, he1⟩ := hpre self.client 1 (by omega) (by omega)
    obtain ⟨ec2, he2⟩ := hpre proxy.nextId 2 (by omega) (by omega)
    exact ⟨⟨proxy.nextId + 1⟩, ⟨proxy.nextId + 1, proxy.nextId + 2⟩,
      ⟨[self.client, proxy.nextId], 2,
       [self.client, proxy.nextId, proxy.nextId + 1]⟩,
      by simp [MethodProxy.invoke, MethodProxy.callAux, he1, he2, hk,
        MethodProxy.max_call_count], rfl, rfl, rfl⟩

/-- Claim C6 witness: a connection failure on attempt 1 followed by a
non-connectivity error on attempt 2; the latter propagates with only
the one cycle caused by the former. -/
theorem C6_other_error_propagates_witness :
    ∃ g p tr, MethodProxy.invoke
        (fun _ j => if j = 1 then .connError 5 else .otherError 9) ⟨0⟩ ⟨0, 1⟩ =
        some (.raisedOther 9, g, p, tr)
      ∧ tr.calls.length = 2 ∧ tr.evictions.length = 1 ∧ tr.creations = 1 :=
  C6_other_error_propagates
    (fun _ j => if j = 1 then .connError 5 else .otherError 9) 9 2 ⟨0⟩ ⟨0, 1⟩
    (by omega) (by omega)
    (fun c j hj1 hj2 => ⟨5, by
      have hj : j = 1 := by omega
      subst hj
      rfl⟩)
    (fun _ => rfl)

/-- Claim C10: `get_servers` splits a string location at every comma,
so a single string containing a comma always becomes at least two
separate server entries. -/
theorem C10_comma_always_splits (s : String) (h : ',' ∈ s.data) :
    ∃ l, get_servers (.str s) = .ok l ∧ 2 ≤ l.length := by
  refine ⟨_, rfl, ?_⟩
  have hlen := pySplitChar_length ',' s.data
  have hcount : s.data.count ',' ≠ 0 := by
    intro h0
    exact absurd h (by simpa using List.count_eq_zero.mp h0)
  simp only [List.length_map, hlen]
  omega

/-- Claim C10 witness: a URL whose query contains a comma is split into
two servers. -/
theorem C10_comma_always_splits_witness :
    ∃ l, get_servers (.str "redis://a?x=1,2") = .ok l ∧ 2 ≤ l.length :=
  C10_comma_always_splits "redis://a?x=1,2" (by decide)

end RedisCacheUtils
